import Mathlib

/-
Verification of fastapi-rs (a FastAPI fork with a Rust acceleration bridge,
plus a demonstration application) against its natural-language specification.

The Python modules relevant to the claims are shallowly embedded below:
  app/auth.py        : JWT issue/verify, reset tokens
  app/main.py        : the /users/me endpoint
  app/utils.py       : parse_duration, hash_string, retry_decorator
  app/database.py    : DatabaseConnection.execute / get_db_transaction
  app/routers/item.py: list_items / search_items
  fastapi/params.py  : validate_path/query/header_params dispatchers
  fastapi/_rust.py   : bridge dispatchers and their Python fallbacks
  fastapi/routing.py : APIRoute._compile_path and its fallback pass

External collaborators (python-jose JWT semantics, sqlite parameter binding,
the hashlib module surface, the native extension) are modelled from their
documented behaviour; the native library itself is abstracted as optional
function parameters, mirroring the _get_rust_function resolution that yields
no function when the extension is unavailable.
-/

namespace FastapiRs

/-- Python exception values that the embedded code can raise. -/
inductive PyErr where
  | attributeError (name : String)
  | programmingError (msg : String)
  | runtimeError (msg : String)
  | valueError (msg : String)
  | jwtError
  | rustValidationError (detail : String)
  deriving Repr, DecidableEq

/-- Decidable equality of embedded computation results, used to evaluate the
embedded functions on concrete inputs. -/
instance {ε α : Type} [DecidableEq ε] [DecidableEq α] : DecidableEq (Except ε α) :=
  fun x y =>
  match x, y with
  | .ok a, .ok b =>
    if h : a = b then .isTrue (by rw [h])
    else .isFalse (fun hc => by cases hc; exact h rfl)
  | .ok _, .error _ => .isFalse (fun hc => Except.noConfusion hc)
  | .error _, .ok _ => .isFalse (fun hc => Except.noConfusion hc)
  | .error e, .error f =>
    if h : e = f then .isTrue (by rw [h])
    else .isFalse (fun hc => by cases hc; exact h rfl)

/-- Claims carried by a signed token in app/auth.py: subject, optional scope
list, the reset-token type marker, and the expiry timestamp (seconds). -/
structure JWTPayload where
  sub : Option String
  scopes : Option (List String)
  typ : Option String
  exp : Option Int
  deriving Repr, DecidableEq

/-- A signed token: the payload together with the signing key. Signature
validity is modelled as key equality at decode time. -/
structure JWTToken where
  payload : JWTPayload
  key : String
  deriving Repr, DecidableEq

/-- Model of jose jwt.encode as used by app/auth.py. -/
def jwtEncode (payload : JWTPayload) (key : String) : JWTToken :=
  ⟨payload, key⟩

/-- Model of jose jwt.decode: fails on a signature (key) mismatch, and fails
with an expiry error when the exp claim lies strictly in the past. -/
def jwtDecode (t : JWTToken) (key : String) (now : Int) : Except PyErr JWTPayload :=
  if t.key ≠ key then .error .jwtError
  else
    match t.payload.exp with
    | some e => if e < now then .error .jwtError else .ok t.payload
    | none => .ok t.payload

/-- Token data extracted by verify_token in app/auth.py. -/
structure TokenData where
  username : Option String
  scopes : List String
  deriving Repr, DecidableEq

/-- An HTTPException as raised by the application code. -/
structure HTTPExc where
  status_code : Nat
  detail : String
  headers : List (String × String)
  deriving Repr, DecidableEq

def ACCESS_TOKEN_EXPIRE_MINUTES : Int := 30

/-- app/auth.py create_access_token: copies the payload and stamps the expiry
at now plus the supplied delta, defaulting to 30 minutes. -/
def create_access_token (data : JWTPayload) (expires_delta : Option Int)
    (now : Int) (key : String) : JWTToken :=
  let expire :=
    match expires_delta with
    | some d => now + d
    | none => now + ACCESS_TOKEN_EXPIRE_MINUTES * 60
  jwtEncode { data with exp := some expire } key

/-- The 401 exception raised by verify_token in app/auth.py. -/
def credentials_exception : HTTPExc :=
  ⟨401, "Could not validate credentials", [("WWW-Authenticate", "Bearer")]⟩

/-- app/auth.py verify_token: decodes the token, requires a subject claim, and
maps every decode failure or missing subject to the 401 credentials error. -/
def verify_token (t : JWTToken) (key : String) (now : Int) :
    Except HTTPExc TokenData :=
  match jwtDecode t key now with
  | .error _ => .error credentials_exception
  | .ok payload =>
    match payload.sub with
    | none => .error credentials_exception
    | some username => .ok ⟨some username, payload.scopes.getD []⟩

/-- app/auth.py generate_reset_token: subject is the email, type is reset,
expiry one hour out. -/
def generate_reset_token (email : String) (now : Int) (key : String) : JWTToken :=
  jwtEncode { sub := some email, scopes := none, typ := some "reset",
              exp := some (now + 3600) } key

/-- app/auth.py verify_reset_token: returns the email when decode succeeds,
the subject is present, and the type claim equals reset; otherwise returns
the absent sentinel, never raising. -/
def verify_reset_token (t : JWTToken) (key : String) (now : Int) : Option String :=
  match jwtDecode t key now with
  | .error _ => none
  | .ok payload =>
    match payload.sub, payload.typ with
    | some email, some ty => if ty = "reset" then some email else none
    | _, _ => none

/-- C3: issuing a token for subject alice and immediately verifying it yields
token data with username alice; any token whose expiry claim lies in the past
is rejected by verify_token with the 401 credentials exception carrying the
WWW-Authenticate Bearer header. -/
theorem create_verify_roundtrip_and_expiry (key : String) (now : Int)
    (t : JWTToken) (e : Int) (hexp : t.payload.exp = some e) (hpast : e < now) :
    verify_token (create_access_token ⟨some "alice", none, none, none⟩ none now key)
        key now = .ok ⟨some "alice", []⟩ ∧
    verify_token t key now = .error credentials_exception ∧
    credentials_exception.status_code = 401 ∧
    ("WWW-Authenticate", "Bearer") ∈ credentials_exception.headers := by
  refine ⟨?_, ?_, rfl, by simp [credentials_exception]⟩
  · simp only [verify_token, create_access_token, jwtEncode, jwtDecode]
    have hlt : ¬ (now + ACCESS_TOKEN_EXPIRE_MINUTES * 60 < now) := by
      simp only [ACCESS_TOKEN_EXPIRE_MINUTES]
      omega
    simp [hlt]
  · have hdec : jwtDecode t key now = .error .jwtError := by
      unfold jwtDecode
      by_cases hk : t.key = key
      · simp [hk, hexp, hpast]
      · simp [hk]
    simp [verify_token, hdec]

/-- Witness for C3 at a concrete key, time and expired token. -/
theorem create_verify_roundtrip_and_expiry_witness :
    verify_token (create_access_token ⟨some "alice", none, none, none⟩ none 1000 "secret")
        "secret" 1000 = .ok ⟨some "alice", []⟩ ∧
    verify_token ⟨⟨some "bob", none, none, some 5⟩, "secret"⟩ "secret" 1000
        = .error credentials_exception ∧
    credentials_exception.status_code = 401 ∧
    ("WWW-Authenticate", "Bearer") ∈ credentials_exception.headers :=
  create_verify_roundtrip_and_expiry "secret" 1000
    ⟨⟨some "bob", none, none, some 5⟩, "secret"⟩ 5 rfl (by decide)

/-- C6: a reset token issued for an email verifies back to that email while
unexpired; and whenever decoding fails, the subject is absent, or the type
claim is not reset, verify_reset_token returns the absent sentinel (the Option
return type records that this path raises nothing). -/
theorem reset_token_roundtrip_and_failure (email key : String) (now vt : Int)
    (hfresh : vt ≤ now + 3600) (t : JWTToken) :
    verify_reset_token (generate_reset_token email now key) key vt = some email ∧
    ((jwtDecode t key vt).isOk = false → verify_reset_token t key vt = none) ∧
    (t.payload.sub = none → verify_reset_token t key vt = none) ∧
    (t.payload.typ ≠ some "reset" → verify_reset_token t key vt = none) := by
  refine ⟨?_, ?_, ?_, ?_⟩
  · simp only [verify_reset_token, generate_reset_token, jwtEncode, jwtDecode]
    have hlt : ¬ (now + 3600 < vt) := by omega
    simp [hlt]
  · intro hdec
    simp only [verify_reset_token]
    cases hd : jwtDecode t key vt with
    | error e => rfl
    | ok p => rw [hd] at hdec; simp [Except.isOk, Except.toBool] at hdec
  · intro hsub
    have hpay : ∀ p, jwtDecode t key vt = .ok p → p = t.payload := by
      intro p hp
      unfold jwtDecode at hp
      by_cases hk : t.key = key
      · simp only [hk, ne_eq, not_true_eq_false, if_false] at hp
        cases hexp : t.payload.exp with
        | none => rw [hexp] at hp; cases hp; rfl
        | some e =>
          rw [hexp] at hp
          by_cases hlt : e < vt
          · simp [hlt] at hp
          · simp [hlt] at hp; exact hp.symm
      · simp [hk] at hp
    simp only [verify_reset_token]
    cases hd : jwtDecode t key vt with
    | error e => rfl
    | ok p =>
      rw [hpay p hd]
      simp [hsub]
  · intro htyp
    have hpay : ∀ p, jwtDecode t key vt = .ok p → p = t.payload := by
      intro p hp
      unfold jwtDecode at hp
      by_cases hk : t.key = key
      · simp only [hk, ne_eq, not_true_eq_false, if_false] at hp
        cases hexp : t.payload.exp with
        | none => rw [hexp] at hp; cases hp; rfl
        | some e =>
          rw [hexp] at hp
          by_cases hlt : e < vt
          · simp [hlt] at hp
          · simp [hlt] at hp; exact hp.symm
      · simp [hk] at hp
    simp only [verify_reset_token]
    cases hd : jwtDecode t key vt with
    | error e => rfl
    | ok p =>
      rw [hpay p hd]
      cases hs : t.payload.sub with
      | none => simp [hs]
      | some em =>
        cases ht : t.payload.typ with
        | none => simp [hs, ht]
        | some ty =>
          have hne : ty ≠ "reset" := by
            intro hcontra; exact htyp (by rw [ht, hcontra])
          simp [hs, ht, hne]

/-- Witness for C6 at a concrete email, key, times and a wrong-type token. -/
theorem reset_token_roundtrip_and_failure_witness :
    verify_reset_token (generate_reset_token "user@example.com" 0 "secret") "secret" 100
        = some "user@example.com" ∧
    ((jwtDecode ⟨⟨some "x", none, some "access", none⟩, "secret"⟩ "secret" 100).isOk = false →
      verify_reset_token ⟨⟨some "x", none, some "access", none⟩, "secret"⟩ "secret" 100 = none) ∧
    ((⟨⟨some "x", none, some "access", none⟩, "secret"⟩ : JWTToken).payload.sub = none →
      verify_reset_token ⟨⟨some "x", none, some "access", none⟩, "secret"⟩ "secret" 100 = none) ∧
    ((⟨⟨some "x", none, some "access", none⟩, "secret"⟩ : JWTToken).payload.typ ≠ some "reset" →
      verify_reset_token ⟨⟨some "x", none, some "access", none⟩, "secret"⟩ "secret" 100 = none) :=
  reset_token_roundtrip_and_failure "user@example.com" "secret" 0 100 (by decide)
    ⟨⟨some "x", none, some "access", none⟩, "secret"⟩

/-- A row of the users table in app/database.py as read by the demonstration
API (the columns touched by registration, login and the profile endpoint). -/
structure UserRow where
  id : Int
  email : String
  password_hash : String
  full_name : String
  deriving Repr, DecidableEq

/-- The user view returned by the demonstration API (models.py UserResponse). -/
structure UserResponse where
  id : Int
  email : String
  full_name : String
  deriving Repr, DecidableEq

/-- A value flowing from the endpoint into a sqlite query placeholder. The
driver accepts None, integers, floats, strings and bytes; any other object,
such as the TokenData model that verify_token returns, fails to bind. -/
inductive PyParam where
  | pyint (n : Int)
  | pystr (s : String)
  | pynone
  | tokenData (td : TokenData)
  deriving Repr, DecidableEq

/-- A bound sqlite value. -/
inductive SQLParam where
  | int (n : Int)
  | text (s : String)
  | null
  deriving Repr, DecidableEq

/-- Model of sqlite3 parameter binding: binding an object of an unsupported
type raises a programming error, as the sqlite driver does. -/
def bindParam : PyParam → Except PyErr SQLParam
  | .pyint n => .ok (.int n)
  | .pystr s => .ok (.text s)
  | .pynone => .ok .null
  | .tokenData _ =>
    .error (.programmingError "Error binding parameter 0 - probably unsupported type.")

/-- The fetch_one call issued by the /users/me endpoint, selecting a user row
by id. A text parameter is compared against the integer id column under the
sqlite integer-affinity conversion. -/
def selectUserById (users : List UserRow) (p : PyParam) :
    Except PyErr (Option UserRow) := do
  let v ← bindParam p
  match v with
  | .int n => pure (users.find? (fun u => u.id = n))
  | .text s =>
    match s.toInt? with
    | some n => pure (users.find? (fun u => u.id = n))
    | none => pure none
  | .null => pure none

/-- An error escaping an endpoint: either an HTTPException or an uncaught
Python exception (rendered as a 500 by the framework handlers). -/
inductive EndpointErr where
  | http (e : HTTPExc)
  | py (e : PyErr)
  deriving Repr, DecidableEq

/-- The GET /users/me endpoint of app/main.py: it assigns the whole result of
verify_token (a TokenData model) to user_id and passes that object as the
query parameter of the users lookup. -/
def main_get_current_user (users : List UserRow) (t : JWTToken) (key : String)
    (now : Int) : Except EndpointErr UserResponse :=
  match verify_token t key now with
  | .error e => .error (.http e)
  | .ok user_id =>
    match selectUserById users (.tokenData user_id) with
    | .error e => .error (.py e)
    | .ok none => .error (.http ⟨404, "User not found", []⟩)
    | .ok (some u) => .ok ⟨u.id, u.email, u.full_name⟩

/-- C2: with a valid bearer token issued at login for user id 1 and the user
row present, GET /users/me does not return the 200 user view: the TokenData
object returned by verify_token is bound as the SQL id parameter and the
lookup raises a binding error. The same error, not a 404, results when the
row is absent; and no input at all can produce a successful response. -/
theorem users_me_never_returns_user_view :
    main_get_current_user [⟨1, "alice@example.com", "hash", "Alice"⟩]
        (create_access_token ⟨some "1", none, none, none⟩ none 0 "secret") "secret" 0
      = .error (.py (.programmingError
          "Error binding parameter 0 - probably unsupported type.")) ∧
    main_get_current_user []
        (create_access_token ⟨some "1", none, none, none⟩ none 0 "secret") "secret" 0
      = .error (.py (.programmingError
          "Error binding parameter 0 - probably unsupported type.")) ∧
    ∀ (users : List UserRow) (t : JWTToken) (key : String) (now : Int)
      (r : UserResponse), main_get_current_user users t key now ≠ .ok r := by
  refine ⟨by rfl, by rfl, ?_⟩
  intro users t key now r
  simp only [main_get_current_user]
  cases verify_token t key now with
  | error e => simp
  | ok td => intro h; exact Except.noConfusion h

/-- Model of the re module duration regex in app/utils.py parse_duration.
Each component of the pattern is an optional group of digits, optional
whitespace, the unit letter and an optional spelled-out suffix; matching is
sequential and greedy, exactly as the regex engine proceeds on this pattern. -/
def matchDurationComponent (unit : Char) (suffix : List Char) (s : List Char) :
    Option (Nat × List Char) :=
  let digits := s.takeWhile Char.isDigit
  let rest := s.dropWhile Char.isDigit
  if digits.isEmpty then none
  else
    match rest.dropWhile Char.isWhitespace with
    | [] => none
    | c :: rest2 =>
      if c.toLower = unit then
        some (digits.foldl (fun acc d => acc * 10 + (d.toNat - 48)) 0,
              rest2.dropWhile (fun ch => suffix.contains ch.toLower))
      else none

/-- An optional regex group: consumes nothing when the component fails. -/
def optDurationComponent (unit : Char) (suffix : List Char) (s : List Char) :
    Option Nat × List Char :=
  match matchDurationComponent unit suffix s with
  | some (n, rest) => (some n, rest)
  | none => (none, s)

/-- The four captured groups of the duration regex. Because every group is
optional, re.match always yields a (possibly empty, still truthy) match, so
this function is total and never reports a failure. -/
def reMatchDuration (s : List Char) :
    Option (Option Nat × Option Nat × Option Nat × Option Nat) :=
  some (
    let (d, s1) := optDurationComponent 'd' ['a', 'y', 's'] s
    let (h, s2) := optDurationComponent 'h' ['o', 'u', 'r', 's'] s1
    let (m, s3) := optDurationComponent 'm' ['i', 'n', 'u', 't', 'e', 's'] s2
    let (sec, _) := optDurationComponent 's' ['e', 'c', 'o', 'n', 'd', 's'] s3
    (d, h, m, sec))

/-- Python str.strip: remove leading and trailing whitespace. -/
def pyStrip (s : List Char) : List Char :=
  ((s.dropWhile Char.isWhitespace).reverse.dropWhile Char.isWhitespace).reverse

/-- app/utils.py parse_duration: strips the input, applies the duration regex,
raises when the match is falsy (a branch the regex can never take) and sums
the captured components into seconds. -/
def parse_duration (s : String) : Except PyErr Nat :=
  match reMatchDuration (pyStrip s.data) with
  | none => .error (.valueError "Invalid duration format")
  | some (d, h, m, sec) =>
    .ok (d.getD 0 * 24 * 3600 + h.getD 0 * 3600 + m.getD 0 * 60 + sec.getD 0)

/-- C4: parse_duration computes 183600 seconds for 2d3h, but an input matching
none of the recognized units does not raise the invalid-format error: the
all-optional regex produces a truthy empty match, so the function returns 0,
and in fact it never raises on any input. -/
theorem parse_duration_eval :
    parse_duration "2d3h" = .ok 183600 ∧
    parse_duration "xyz" = .ok 0 ∧
    ∀ s : String, (parse_duration s).isOk = true := by
  refine ⟨by decide, by decide, ?_⟩
  intro s
  simp [parse_duration, reMatchDuration, Except.isOk, Except.toBool]

/-- The attribute surface of the Python standard-library hashlib module (the
documented constructors and helpers); pbkdf2_hex is not among them. -/
def hashlibAttrs : List String :=
  ["md5", "sha1", "sha224", "sha256", "sha384", "sha512",
   "sha3_224", "sha3_256", "sha3_384", "sha3_512", "shake_128", "shake_256",
   "blake2b", "blake2s", "new", "pbkdf2_hmac", "scrypt", "file_digest",
   "algorithms_available", "algorithms_guaranteed"]

/-- app/utils.py hash_string, parameterized by the digest primitives. With a
truthy salt it looks up hashlib.pbkdf2_hex, an attribute the hashlib module
does not define, so the lookup raises; without a salt it returns the SHA-256
hex digest of the input. -/
def hash_string (sha256hex : String → String)
    (pbkdf2hex : String → String → Nat → String)
    (data : String) (salt : Option String) : Except PyErr String :=
  match salt with
  | some s =>
    if s ≠ "" then
      if hashlibAttrs.contains "pbkdf2_hex" then .ok (pbkdf2hex data s 100000)
      else .error (.attributeError "pbkdf2_hex")
    else .ok (sha256hex data)
  | none => .ok (sha256hex data)

/-- C7: without a salt, hash_string returns the plain SHA-256 hex digest; with
a (nonempty) salt the salted branch never completes, raising an attribute
error because hashlib.pbkdf2_hex does not exist. -/
theorem hash_string_unsalted_ok_salted_raises (sha256hex : String → String)
    (pbkdf2hex : String → String → Nat → String) (data : String) :
    hash_string sha256hex pbkdf2hex data none = .ok (sha256hex data) ∧
    hash_string sha256hex pbkdf2hex data (some "salt")
      = .error (.attributeError "pbkdf2_hex") := by
  constructor
  · rfl
  · simp [hash_string, hashlibAttrs]

/-- The observable behaviour of one call to a function wrapped by the retry
decorator of app/utils.py: the final outcome, the number of invocations of
the wrapped function, and the sleep durations between attempts. -/
structure RetryTrace (α : Type) where
  result : Except PyErr α
  calls : Nat
  sleeps : List ℚ
  deriving Repr

/-- The attempt loop of the retry decorator sync wrapper (the wrapper the
decorator selects for ordinary functions, since the co_names heuristic it
uses never fires): call the function; on success return, on failure sleep
delay times two to the attempt and retry while attempts remain, re-raising
the last error after the final attempt. -/
def retryFrom (call : Nat → Except PyErr α) (delay : ℚ)
    (max_retries attempt : Nat) : RetryTrace α :=
  match call attempt with
  | .ok a => ⟨.ok a, 1, []⟩
  | .error e =>
    if h : attempt < max_retries then
      let rest := retryFrom call delay max_retries (attempt + 1)
      ⟨rest.result, rest.calls + 1, delay * 2 ^ attempt :: rest.sleeps⟩
    else ⟨.error e, 1, []⟩
termination_by max_retries - attempt
decreasing_by omega

/-- app/utils.py retry_decorator applied to a call, starting at attempt 0. -/
def retry_decorator (max_retries : Nat) (delay : ℚ)
    (call : Nat → Except PyErr α) : RetryTrace α :=
  retryFrom call delay max_retries 0

/-- C9: wrapping a function that raises on every invocation with the retry
decorator at three retries and base delay one second invokes it exactly four
times, sleeps one, two and four seconds between attempts, and propagates the
last raised error. -/
theorem retry_always_failing_trace (errs : Nat → PyErr) :
    retry_decorator 3 1 (fun n => (.error (errs n) : Except PyErr Unit))
      = ⟨.error (errs 3), 4, [1, 2, 4]⟩ := by
  show retryFrom _ 1 3 0 = _
  rw [retryFrom, retryFrom, retryFrom, retryFrom]
  norm_num

/-- The state of the shared sqlite connection of app/database.py: the
statements already committed to the database file and the statements of the
open implicit transaction, in order of execution. -/
structure Conn where
  committed : List String
  pending : List String
  deriving Repr, DecidableEq

/-- A raw cursor execution on the connection: the statement joins the open
implicit transaction. -/
def connExecute (c : Conn) (stmt : String) : Conn :=
  { c with pending := c.pending ++ [stmt] }

/-- Connection commit: the open transaction becomes durable. -/
def connCommit (c : Conn) : Conn :=
  ⟨c.committed ++ c.pending, []⟩

/-- Connection rollback: the open transaction is discarded; committed
statements are untouched. -/
def connRollback (c : Conn) : Conn :=
  { c with pending := [] }

/-- DatabaseConnection.execute in app/database.py: executes the statement and
immediately commits the shared connection. -/
def DatabaseConnection_execute (c : Conn) (stmt : String) : Conn :=
  connCommit (connExecute c stmt)

/-- DatabaseConnection.execute_many: executes every statement of the batch and
immediately commits the shared connection. -/
def DatabaseConnection_execute_many (c : Conn) (stmts : List String) : Conn :=
  connCommit (stmts.foldl connExecute c)

/-- The operations a body scoped by get_db_transaction can issue on the shared
connection: the committing execute and execute_many wrappers, or a raw
uncommitted cursor execution. -/
inductive DbOp where
  | exec (stmt : String)
  | execMany (stmts : List String)
  | raw (stmt : String)
  deriving Repr, DecidableEq

/-- Run a sequence of scoped operations against the connection. -/
def runOps (ops : List DbOp) (c : Conn) : Conn :=
  ops.foldl
    (fun c op =>
      match op with
      | .exec s => DatabaseConnection_execute c s
      | .execMany ss => DatabaseConnection_execute_many c ss
      | .raw s => connExecute c s) c

/-- get_db_transaction in app/database.py: run the enclosed work, commit the
connection when it completes, roll the connection back when it raises. -/
def get_db_transaction (ops : List DbOp) (fails : Bool) (c : Conn) : Conn :=
  let c1 := runOps ops c
  if fails then connRollback c1 else connCommit c1

theorem foldl_connExecute_pending (ss : List String) (c : Conn) :
    (ss.foldl connExecute c).pending = c.pending ++ ss := by
  induction ss generalizing c with
  | nil => simp
  | cons x xs ih => simp [List.foldl, ih, connExecute]

theorem foldl_connExecute_committed (ss : List String) (c : Conn) :
    (ss.foldl connExecute c).committed = c.committed := by
  induction ss generalizing c with
  | nil => rfl
  | cons x xs ih => simp [List.foldl, ih, connExecute]

theorem runOps_committed_sublist (ops : List DbOp) (c : Conn) :
    List.Sublist c.committed (runOps ops c).committed := by
  induction ops generalizing c with
  | nil => exact List.Sublist.refl _
  | cons op rest ih =>
    cases op with
    | exec s =>
      refine List.Sublist.trans ?_ (ih (DatabaseConnection_execute c s))
      simp only [DatabaseConnection_execute, connCommit, connExecute]
      exact List.sublist_append_left _ _
    | execMany ss =>
      refine List.Sublist.trans ?_ (ih (DatabaseConnection_execute_many c ss))
      simp only [DatabaseConnection_execute_many, connCommit,
        foldl_connExecute_committed]
      exact List.sublist_append_left _ _
    | raw s => exact ih (connExecute c s)

/-- C10: when the work inside a get_db_transaction scope fails, the rollback
clears only the uncommitted statements: the committed set is exactly what the
operations themselves had already committed, every statement issued through
execute or execute_many inside the scope is still committed afterwards, and a
raw uncommitted statement, such as the trailing one in the concrete scope
below, is the only kind the rollback undoes. -/
theorem transaction_rollback_keeps_committed (ops : List DbOp) (c : Conn) :
    (get_db_transaction ops true c).committed = (runOps ops c).committed ∧
    (get_db_transaction ops true c).pending = [] ∧
    (∀ s, DbOp.exec s ∈ ops → s ∈ (get_db_transaction ops true c).committed) ∧
    (∀ s ss, DbOp.execMany ss ∈ ops → s ∈ ss →
      s ∈ (get_db_transaction ops true c).committed) ∧
    get_db_transaction [DbOp.exec "s1", DbOp.raw "s2"] true ⟨[], []⟩
      = ⟨["s1"], []⟩ := by
  refine ⟨rfl, rfl, ?_, ?_, by decide⟩
  · intro s hs
    show s ∈ (connRollback (runOps ops c)).committed
    induction ops generalizing c with
    | nil => cases hs
    | cons op rest ih =>
      rcases List.mem_cons.mp hs with heq | hmem
      · subst heq
        have hmem1 : s ∈ (DatabaseConnection_execute c s).committed := by
          simp [DatabaseConnection_execute, connCommit, connExecute]
        exact (runOps_committed_sublist rest (DatabaseConnection_execute c s)).subset hmem1
      · exact ih _ hmem
  · intro s ss hss hmem
    show s ∈ (connRollback (runOps ops c)).committed
    induction ops generalizing c with
    | nil => cases hss
    | cons op rest ih =>
      rcases List.mem_cons.mp hss with heq | hrest
      · subst heq
        have hmem1 : s ∈ (DatabaseConnection_execute_many c ss).committed := by
          simp only [DatabaseConnection_execute_many, connCommit,
            foldl_connExecute_pending]
          exact List.mem_append.mpr (Or.inr (List.mem_append.mpr (Or.inr hmem)))
        exact (runOps_committed_sublist rest
          (DatabaseConnection_execute_many c ss)).subset hmem1
      · exact ih _ hrest

/-- Witness for C10: a concrete failing scope keeps the executed statement
committed. -/
theorem transaction_rollback_keeps_committed_witness :
    "s1" ∈ (get_db_transaction [DbOp.exec "s1", DbOp.raw "s2"] true ⟨[], []⟩).committed :=
  (transaction_rollback_keeps_committed [DbOp.exec "s1", DbOp.raw "s2"]
    ⟨[], []⟩).2.2.1 "s1" (by decide)

/-- A JSON-like Python value as marshalled for the bridge by
marshal_dict_for_rust in fastapi/params.py. -/
inductive PyVal where
  | pynone
  | pybool (b : Bool)
  | pyint (n : Int)
  | pystr (s : String)
  | pylist (xs : List PyVal)
  | pydict (kvs : List (String × PyVal))

/-- The ValidationResult object produced by the dispatchers of
fastapi/_rust.py: a validity flag, the error list, and the validated data. -/
structure ValidationResult where
  valid : Bool
  errors : List String
  validated_data : PyVal

/-- The import state of the native extension as seen through fastapi/_rust.py:
either the module failed to import, or it loaded and its rust_available entry
point reports the given availability. For every function name the bridge
resolves, an absent extension yields no function, which is why the natural
way to pass a resolved native function below is an Option that is none
whenever the extension is unavailable. -/
inductive BridgeState where
  | absent
  | loaded (avail : Bool)
  deriving Repr, DecidableEq

/-- The type of a resolved native parameter-validation entry point. -/
def NativeValidator : Type :=
  List (String × PyVal) → List (String × PyVal) → Except PyErr ValidationResult

/-- fastapi/_rust.py validate_path_params: use the native function when the
bridge resolves one, otherwise warn once and fall back to the Python pass
that copies every parameter present in the schema into validated_data with an
empty error list. The fallback always returns a result. -/
def rust_validate_path_params (native : Option NativeValidator)
    (params schema : List (String × PyVal)) : Except PyErr ValidationResult :=
  match native with
  | some f => f params schema
  | none =>
    .ok ⟨true, [],
      .pydict (params.filter (fun kv => schema.any (fun sv => sv.fst = kv.fst)))⟩

/-- fastapi/_rust.py validate_query_params: native when resolved, otherwise
the fallback reuses the path-parameter validation logic. -/
def rust_validate_query_params (nativeQ nativeP : Option NativeValidator)
    (params schema : List (String × PyVal)) : Except PyErr ValidationResult :=
  match nativeQ with
  | some f => f params schema
  | none => rust_validate_path_params nativeP params schema

/-- fastapi/_rust.py validate_header_params: native when resolved, otherwise
the fallback lowercases the header names and reuses the path-parameter
validation logic. -/
def rust_validate_header_params (nativeH nativeP : Option NativeValidator)
    (headers schema : List (String × PyVal)) : Except PyErr ValidationResult :=
  match nativeH with
  | some f => f headers schema
  | none =>
    rust_validate_path_params nativeP
      (headers.map (fun kv => (kv.fst.toLower, kv.snd))) schema

/-- fastapi/_rust.py validate_body_params: native when resolved, otherwise
the fallback parses a string body as JSON (recording a parse failure as an
error entry with valid set to false) and passes any other body through as the
validated data. It returns a result in every case. -/
def rust_validate_body_params
    (native : Option (PyVal → List (String × PyVal) → Except PyErr ValidationResult))
    (jsonLoads : String → Except String PyVal)
    (body : PyVal) (schema : List (String × PyVal)) : Except PyErr ValidationResult :=
  match native with
  | some f => f body schema
  | none =>
    match body with
    | .pystr s =>
      match jsonLoads s with
      | .ok v => .ok ⟨true, [], v⟩
      | .error e => .ok ⟨false, [e], .pydict []⟩
    | b => .ok ⟨true, [], b⟩

/-- The shared body of the three dispatchers in fastapi/params.py. The
attribute rust_available does not exist in fastapi/_rust.py itself, so the
module-level getattr hook resolves it from the extension: when the extension
is absent the very first check raises an AttributeError; when the extension
is loaded but reports unavailable, the dispatcher logs and raises the
critical RuntimeError; when it is available, the resolved native function is
called inside a try block whose failures, including a failed resolution, are
wrapped into RustValidationError, and an invalid result is also raised as a
RustValidationError. No branch falls back to a Python validator. -/
def paramsValidateDispatch (function_name : String) (bridge : BridgeState)
    (native : Option NativeValidator)
    (params schema : List (String × PyVal)) : Except PyErr PyVal :=
  match bridge with
  | .absent => .error (.attributeError "rust_available")
  | .loaded avail =>
    if avail then
      match native with
      | none =>
        .error (.rustValidationError (function_name ++ ": AttributeError"))
      | some f =>
        match f params schema with
        | .ok r =>
          if r.valid then .ok r.validated_data
          else .error (.rustValidationError (function_name ++ ": Rust validation failed"))
        | .error _ =>
          .error (.rustValidationError
            (function_name ++ ": Exception during Rust validation"))
    else
      .error (.runtimeError
        ("Critical: Rust extension for parameter validation is not available ("
          ++ function_name ++ ")"))

/-- fastapi/params.py validate_path_params. -/
def params_validate_path_params (bridge : BridgeState)
    (native : Option NativeValidator)
    (params schema : List (String × PyVal)) : Except PyErr PyVal :=
  paramsValidateDispatch "validate_path_params" bridge native params schema

/-- fastapi/params.py validate_query_params. -/
def params_validate_query_params (bridge : BridgeState)
    (native : Option NativeValidator)
    (params schema : List (String × PyVal)) : Except PyErr PyVal :=
  paramsValidateDispatch "validate_query_params" bridge native params schema

/-- fastapi/params.py validate_header_params. -/
def params_validate_header_params (bridge : BridgeState)
    (native : Option NativeValidator)
    (headers schema : List (String × PyVal)) : Except PyErr PyVal :=
  paramsValidateDispatch "validate_header_params" bridge native headers schema

/-- C1 counterexample: a call to the validate_body_params dispatcher (which
exists only in fastapi/_rust.py) made while the native extension is
unavailable does not raise: the Python fallback returns a validation result,
so the claim that all four dispatchers fail hard without returning is false
at this input. -/
theorem validate_body_params_fallback_returns_result :
    rust_validate_body_params none (fun _ => .error "unused")
        (.pydict [("a", .pyint 1)]) []
      = .ok ⟨true, [], .pydict [("a", .pyint 1)]⟩ := rfl

/-- C1 amended: while the native extension is unavailable, the three
dispatchers defined in fastapi/params.py (validate_path_params,
validate_query_params, validate_header_params; no validate_body_params is
defined there) raise an error and never return a result — an AttributeError
from the bridge lookup when the extension is absent, or the critical
RuntimeError when it loads but reports unavailable — whereas the dispatchers
in fastapi/_rust.py, including the only validate_body_params in the tree,
fall back to a Python validator and return a validation result. -/
theorem params_validation_fails_hard_rust_falls_back (bridge : BridgeState)
    (hunavail : bridge = .absent ∨ bridge = .loaded false)
    (native : Option NativeValidator) (params schema : List (String × PyVal))
    (jsonLoads : String → Except String PyVal) (body : PyVal) :
    (∃ e, params_validate_path_params bridge native params schema = .error e) ∧
    (∃ e, params_validate_query_params bridge native params schema = .error e) ∧
    (∃ e, params_validate_header_params bridge native params schema = .error e) ∧
    (∃ r, rust_validate_path_params none params schema = .ok r) ∧
    (∃ r, rust_validate_query_params none none params schema = .ok r) ∧
    (∃ r, rust_validate_header_params none none params schema = .ok r) ∧
    (∃ r, rust_validate_body_params none jsonLoads body schema = .ok r) := by
  have hdisp : ∀ fn, ∃ e,
      paramsValidateDispatch fn bridge native params schema = .error e := by
    intro fn
    rcases hunavail with h | h <;> subst h
    · exact ⟨.attributeError "rust_available", rfl⟩
    · exact ⟨.runtimeError
        ("Critical: Rust extension for parameter validation is not available ("
          ++ fn ++ ")"), rfl⟩
  refine ⟨hdisp _, hdisp _, hdisp _, ⟨_, rfl⟩, ⟨_, rfl⟩, ⟨_, rfl⟩, ?_⟩
  cases body with
  | pystr s =>
    cases hj : jsonLoads s with
    | ok v => exact ⟨⟨true, [], v⟩, by simp [rust_validate_body_params, hj]⟩
    | error e =>
      exact ⟨⟨false, [e], .pydict []⟩, by simp [rust_validate_body_params, hj]⟩
  | pynone => exact ⟨_, rfl⟩
  | pybool b => exact ⟨_, rfl⟩
  | pyint n => exact ⟨_, rfl⟩
  | pylist xs => exact ⟨_, rfl⟩
  | pydict kvs => exact ⟨_, rfl⟩

/-- Witness for C1 at the absent bridge state and concrete arguments. -/
theorem params_validation_fails_hard_witness :
    (∃ e, params_validate_path_params .absent none [] [] = .error e) ∧
    (∃ e, params_validate_query_params .absent none [] [] = .error e) ∧
    (∃ e, params_validate_header_params .absent none [] [] = .error e) ∧
    (∃ r, rust_validate_path_params none [] [] = .ok r) ∧
    (∃ r, rust_validate_query_params none none [] [] = .ok r) ∧
    (∃ r, rust_validate_header_params none none [] [] = .ok r) ∧
    (∃ r, rust_validate_body_params none (fun _ => .error "no parse") .pynone []
      = .ok r) :=
  params_validation_fails_hard_rust_falls_back .absent (Or.inl rfl) none [] []
    (fun _ => .error "no parse") .pynone

def lbrace : Char := '\x7b'

def rbrace : Char := '\x7d'

/-- One match of the template-parameter regex over a path template, carrying
the match span in the template and the captured name and optional custom
pattern. -/
structure PathMatch where
  start : Nat
  stop : Nat
  name : String
  pattern : Option String
  deriving Repr, DecidableEq

/-- A word character in the sense of the regex escape used by the path
compilers. -/
def isWordChar (c : Char) : Bool := c.isAlphanum || c = '_'

/-- Parse the inside of a brace group, the characters following an opening
brace: a nonempty name, optionally a colon and a nonempty custom pattern,
then the closing brace. Returns the name, the pattern, and the total length
of the group including both braces. -/
def parseBraceGroup (nameChar : Char → Bool) (s : List Char) :
    Option (String × Option String × Nat) :=
  let name := s.takeWhile nameChar
  if name.isEmpty then none
  else
    match s.drop name.length with
    | c :: rest2 =>
      if c = rbrace then some (String.mk name, none, name.length + 2)
      else if c = ':' then
        let pat := rest2.takeWhile (fun ch => ch ≠ rbrace)
        if pat.isEmpty then none
        else
          match rest2.drop pat.length with
          | d :: _ =>
            if d = rbrace then
              some (String.mk name, some (String.mk pat),
                name.length + pat.length + 3)
            else none
          | [] => none
      else none
    | [] => none

/-- The finditer pass of APIRoute compile_path in fastapi/routing.py over the
template: scan for non-overlapping brace groups with word-character names,
recording each match with its span in the template. -/
def scanPathParamsAux : Nat → List Char → Nat → List PathMatch
  | 0, _, _ => []
  | _ + 1, [], _ => []
  | fuel + 1, c :: rest, i =>
    if c = lbrace then
      match parseBraceGroup isWordChar rest with
      | some (name, pat, consumed) =>
        ⟨i, i + consumed, name, pat⟩ ::
          scanPathParamsAux fuel ((c :: rest).drop consumed) (i + consumed)
      | none => scanPathParamsAux fuel rest (i + 1)
    else scanPathParamsAux fuel rest (i + 1)

def scanPathParams (s : List Char) : List PathMatch :=
  scanPathParamsAux s.length s 0

/-- The Python fallback of APIRoute compile_path in fastapi/routing.py: start
the accumulator at the caret, and for every template match splice the named
capture group into the accumulator, slicing the accumulator with the match
positions taken from the template, then append the dollar anchor. The
slicing of the one-character accumulator discards the literal text of the
template. -/
def compile_path_fallback (path : String) : String :=
  let ms := scanPathParams path.data
  let folded := ms.foldl
    (fun acc m =>
      let pat := m.pattern.getD "[^/]+"
      String.mk ((acc.data.take m.start)
        ++ ("(?P<" ++ m.name ++ ">" ++ pat ++ ")").data
        ++ (acc.data.drop m.stop)))
    "^"
  folded ++ "$"

/-- The substitution pass of compile_path_regex in fastapi/_rust.py: replace
every brace group (names are any characters other than colon or the closing
brace) with a named capture group matching one or more non-slash characters,
leaving all literal text in place. -/
def substPathParamsAux : Nat → List Char → List Char
  | 0, s => s
  | _ + 1, [] => []
  | fuel + 1, c :: rest =>
    if c = lbrace then
      match parseBraceGroup (fun ch => ch ≠ rbrace && ch ≠ ':') rest with
      | some (name, _, consumed) =>
        ("(?P<" ++ name ++ ">[^/]+)").data
          ++ substPathParamsAux fuel ((c :: rest).drop consumed)
      | none => c :: substPathParamsAux fuel rest
    else c :: substPathParamsAux fuel rest

def rust_compile_path_regex_fallback (path : String) : String :=
  "^" ++ String.mk (substPathParamsAux path.data.length path.data) ++ "$"

/-- A segment of a compiled path pattern: a literal character or a named
capture group matching one or more non-slash characters. -/
inductive RegexSeg where
  | lit (c : Char)
  | group (name : String)
  deriving Repr, DecidableEq

/-- Parse the body of a compiled path pattern, between the caret and dollar
anchors, into segments; patterns outside this shape are not represented. -/
def parseSegsAux : Nat → List Char → Option (List RegexSeg)
  | _, ['$'] => some []
  | 0, _ => none
  | fuel + 1, '(' :: '?' :: 'P' :: '<' :: rest =>
    let name := rest.takeWhile (fun c => c ≠ '>')
    (match rest.drop name.length with
     | '>' :: '[' :: '^' :: '/' :: ']' :: '+' :: ')' :: rest2 =>
       (parseSegsAux fuel rest2).map
         (fun segs => RegexSeg.group (String.mk name) :: segs)
     | _ => none)
  | fuel + 1, c :: rest =>
    (parseSegsAux fuel rest).map (fun segs => RegexSeg.lit c :: segs)
  | _ + 1, [] => none

def parseCompiled (p : String) : Option (List RegexSeg) :=
  match p.data with
  | '^' :: rest => parseSegsAux rest.length rest
  | _ => none

/-- Match a segment list against an input, producing the named captures; a
capture group consumes one or more non-slash characters, greedily with
backtracking, exactly as the regex engine treats the compiled pattern. -/
def matchSegs : List RegexSeg → List Char → Option (List (String × String))
  | [], s => if s.isEmpty then some [] else none
  | .lit c :: segs, s =>
    match s with
    | [] => none
    | x :: xs => if x = c then matchSegs segs xs else none
  | .group name :: segs, s =>
    let maxLen := (s.takeWhile (fun c => c ≠ '/')).length
    (List.range maxLen).reverse.findSome? (fun j =>
      match matchSegs segs (s.drop (j + 1)) with
      | some caps => some ((name, String.mk (s.take (j + 1))) :: caps)
      | none => none)

/-- Anchored match of a compiled pattern against a request path. -/
def regexMatch (p : String) (input : String) : Option (List (String × String)) :=
  match parseCompiled p with
  | some segs => matchSegs segs input.data
  | none => none

def itemsPathTemplate : String := "/items/\x7bitem_id\x7d"

/-- C5: the non-native fallback pass of the routing path compiler drops the
literal prefix of the template — it splices the capture group into the
one-character accumulator using match positions taken from the template — so
the pattern it produces for the items template fails to match /items/42,
while the separate fallback inside the bridge compile_path_regex function
produces the expected pattern that matches /items/42 capturing item_id and
rejects /items/. -/
theorem compile_path_fallback_drops_literal_prefix :
    compile_path_fallback itemsPathTemplate = "^(?P<item_id>[^/]+)$" ∧
    regexMatch "^(?P<item_id>[^/]+)$" "/items/42" = none ∧
    rust_compile_path_regex_fallback itemsPathTemplate
      = "^/items/(?P<item_id>[^/]+)$" ∧
    regexMatch "^/items/(?P<item_id>[^/]+)$" "/items/42"
      = some [("item_id", "42")] ∧
    regexMatch "^/items/(?P<item_id>[^/]+)$" "/items/" = none := by
  exact ⟨by decide, by decide, by decide, by decide, by decide⟩

/-- A catalog item as used by app/routers/item.py. -/
structure Item where
  id : Nat
  title : String
  description : Option String
  price : Int
  category : Option String
  is_active : Bool
  owner_id : Nat
  deriving Repr, DecidableEq

/-- The list response returned by the item listing endpoints. -/
structure ItemListResponse where
  items : List Item
  total : Nat
  skip : Nat
  limit : Nat
  deriving Repr, DecidableEq

/-- The free-text search string built by the routers: the title, a space, and
the description or the empty string. -/
def itemSearchText (it : Item) : String :=
  it.title ++ " " ++ it.description.getD ""

/-- The successive structured query filters of the item listing endpoints
(active flag, category, price bounds, owner), applied in source order with
the truthiness checks of the source: an empty category string and a zero
owner id are falsy and skip their filter. -/
def applyItemFilters (db : List Item) (active_only : Bool)
    (category : Option String) (min_price max_price : Option Int)
    (owner_id : Option Nat) : List Item :=
  let q1 := if active_only then db.filter (fun it => it.is_active) else db
  let q2 :=
    match category with
    | some c => if c ≠ "" then q1.filter (fun it => it.category = some c) else q1
    | none => q1
  let q3 :=
    match min_price with
    | some p => q2.filter (fun it => p ≤ it.price)
    | none => q2
  let q4 :=
    match max_price with
    | some p => q3.filter (fun it => it.price ≤ p)
    | none => q3
  match owner_id with
  | some oid => if oid ≠ 0 then q4.filter (fun it => it.owner_id = oid) else q4
  | none => q4

/-- GET /items/ of app/routers/item.py: build the query by the structured
filters in order, then under a truthy search string fetch all filtered rows,
re-filter them in process with the regex matcher of the facade over the
concatenated text, and slice the filtered list with the skip and limit
window; without a search the window is applied by the query itself. -/
def list_items (db : List Item) (skip limit : Nat) (category : Option String)
    (min_price max_price : Option Int) (search : Option String)
    (active_only : Bool) (owner_id : Option Nat)
    (matcher : String → String → Bool) : ItemListResponse :=
  let q5 := applyItemFilters db active_only category min_price max_price owner_id
  match search with
  | some s =>
    if s ≠ "" then
      let all_items := q5
      let filtered_items := all_items.filter (fun it => matcher (itemSearchText it) s)
      ⟨(filtered_items.drop skip).take limit, filtered_items.length, skip, limit⟩
    else ⟨(q5.drop skip).take limit, q5.length, skip, limit⟩
  | none => ⟨(q5.drop skip).take limit, q5.length, skip, limit⟩

/-- The structured search body accepted by POST /items/search. -/
structure ItemSearchParams where
  category : Option String
  min_price : Option Int
  max_price : Option Int
  owner_id : Option Nat
  text_search : Option String
  deriving Repr, DecidableEq

/-- POST /items/search of app/routers/item.py: the active filter is always
applied, the structured filters come from the body, and a truthy text search
follows the same fetch-all, re-filter, then slice sequence as the listing
endpoint. -/
def search_items (db : List Item) (sp : ItemSearchParams) (skip limit : Nat)
    (matcher : String → String → Bool) : ItemListResponse :=
  let q5 := applyItemFilters db true sp.category sp.min_price sp.max_price sp.owner_id
  match sp.text_search with
  | some s =>
    if s ≠ "" then
      let all_items := q5
      let filtered_items := all_items.filter (fun it => matcher (itemSearchText it) s)
      ⟨(filtered_items.drop skip).take limit, filtered_items.length, skip, limit⟩
    else ⟨(q5.drop skip).take limit, q5.length, skip, limit⟩
  | none => ⟨(q5.drop skip).take limit, q5.length, skip, limit⟩

/-- The structured filters of the listing endpoints as one predicate, stated
from the claim wording: active flag, category, price bounds and owner, with
the same truthiness conventions. -/
def structuredFilterPred (active_only : Bool) (category : Option String)
    (min_price max_price : Option Int) (owner_id : Option Nat) (it : Item) : Bool :=
  (!active_only || it.is_active) &&
  (match category with
   | some c => c = "" || it.category = some c
   | none => true) &&
  (match min_price with
   | some p => p ≤ it.price
   | none => true) &&
  (match max_price with
   | some p => it.price ≤ p
   | none => true) &&
  (match owner_id with
   | some oid => oid = 0 || it.owner_id = oid
   | none => true)

/-- The post-search row set of the claim wording: the structured filters, then
the in-process search over the concatenated title and description. -/
def searchedRows (db : List Item) (active_only : Bool) (category : Option String)
    (min_price max_price : Option Int) (owner_id : Option Nat)
    (matcher : String → String → Bool) (s : String) : List Item :=
  (db.filter (structuredFilterPred active_only category min_price max_price owner_id)).filter
    (fun it => matcher (itemSearchText it) s)


theorem filter_stage_category (q : List Item) (category : Option String) :
    (match category with
     | some c => if c ≠ "" then q.filter (fun it => it.category = some c) else q
     | none => q)
    = q.filter (fun it =>
        match category with
        | some c => decide (c = "") || decide (it.category = some c)
        | none => true) := by
  cases category with
  | none => exact (List.filter_true q).symm
  | some c =>
    by_cases hc : c = ""
    · subst hc
      simp [List.filter_true]
    · simp [hc]

theorem filter_stage_owner (q : List Item) (owner_id : Option Nat) :
    (match owner_id with
     | some oid => if oid ≠ 0 then q.filter (fun it => it.owner_id = oid) else q
     | none => q)
    = q.filter (fun it =>
        match owner_id with
        | some oid => decide (oid = 0) || decide (it.owner_id = oid)
        | none => true) := by
  cases owner_id with
  | none => exact (List.filter_true q).symm
  | some oid =>
    by_cases ho : oid = 0
    · subst ho
      simp [List.filter_true]
    · simp [ho]

theorem filter_stage_price (q : List Item) (bound : Option Int) (f : Item → Int → Bool) :
    (match bound with
     | some p => q.filter (fun it => f it p)
     | none => q)
    = q.filter (fun it =>
        match bound with
        | some p => f it p
        | none => true) := by
  cases bound with
  | none => exact (List.filter_true q).symm
  | some p => rfl

theorem applyItemFilters_eq_filter (db : List Item) (active_only : Bool)
    (category : Option String) (min_price max_price : Option Int)
    (owner_id : Option Nat) :
    applyItemFilters db active_only category min_price max_price owner_id
      = db.filter (structuredFilterPred active_only category min_price max_price owner_id) := by
  have hactive : (if active_only then db.filter (fun it => it.is_active) else db)
      = db.filter (fun it => !active_only || it.is_active) := by
    cases active_only with
    | false => exact (List.filter_true db).symm
    | true => simp
  unfold applyItemFilters
  simp only [hactive, filter_stage_category, filter_stage_price,
    filter_stage_owner]
  simp only [List.filter_filter]
  refine List.filter_congr ?_
  intro it _
  simp only [structuredFilterPred]
  rcases category with _ | c <;> rcases min_price with _ | p1 <;>
    rcases max_price with _ | p2 <;> rcases owner_id with _ | oid <;>
    simp [Bool.and_comm, Bool.and_left_comm, Bool.and_assoc]

/-- C8: under a truthy free-text search the listing and search endpoints
return the skip and limit window sliced out of the post-search row set — the
structured filters applied as one predicate, then the in-process matcher over
the concatenated title and description — with the total counting that same
post-search set, so pagination indexes into the searched result and not the
pre-search rows. -/
theorem list_and_search_paginate_after_filter (db : List Item)
    (skip limit : Nat) (category : Option String)
    (min_price max_price : Option Int) (s : String) (active_only : Bool)
    (owner_id : Option Nat) (matcher : String → String → Bool)
    (hs : s ≠ "") (sp : ItemSearchParams) (hsp : sp.text_search = some s) :
    list_items db skip limit category min_price max_price (some s) active_only
        owner_id matcher
      = ⟨((searchedRows db active_only category min_price max_price owner_id
            matcher s).drop skip).take limit,
         (searchedRows db active_only category min_price max_price owner_id
            matcher s).length, skip, limit⟩ ∧
    search_items db sp skip limit matcher
      = ⟨((searchedRows db true sp.category sp.min_price sp.max_price
            sp.owner_id matcher s).drop skip).take limit,
         (searchedRows db true sp.category sp.min_price sp.max_price
            sp.owner_id matcher s).length, skip, limit⟩ := by
  constructor
  · simp only [list_items, hs, if_true, searchedRows, applyItemFilters_eq_filter,
      ne_eq, not_false_eq_true]
  · simp only [search_items, hsp, hs, if_true, searchedRows,
      applyItemFilters_eq_filter, ne_eq, not_false_eq_true]

/-- Witness for C8 on a concrete two-item catalog where the search drops one
row before the window is applied. -/
theorem list_and_search_paginate_after_filter_witness :
    list_items
        [⟨1, "Apple", some "fruit", 3, some "food", true, 7⟩,
         ⟨2, "Bolt", none, 1, some "hardware", true, 7⟩]
        0 100 none none none (some "A") true none
        (fun text _ => decide (6 <= text.length))
      = ⟨[⟨1, "Apple", some "fruit", 3, some "food", true, 7⟩], 1, 0, 100⟩ ∧
    search_items
        [⟨1, "Apple", some "fruit", 3, some "food", true, 7⟩,
         ⟨2, "Bolt", none, 1, some "hardware", true, 7⟩]
        ⟨none, none, none, none, some "A"⟩ 0 100
        (fun text _ => decide (6 <= text.length))
      = ⟨[⟨1, "Apple", some "fruit", 3, some "food", true, 7⟩], 1, 0, 100⟩ := by
  have h := list_and_search_paginate_after_filter
    [⟨1, "Apple", some "fruit", 3, some "food", true, 7⟩,
     ⟨2, "Bolt", none, 1, some "hardware", true, 7⟩]
    0 100 none none none "A" true none
    (fun text _ => decide (6 <= text.length))
    (by decide) ⟨none, none, none, none, some "A"⟩ rfl
  refine ⟨h.1.trans ?_, h.2.trans ?_⟩ <;> decide

end FastapiRs
